import Mathlib

/-!
Verification of the IBIS/VDV-300 telegram codec (pyIBISv2, ibis_protocol.py).

Strings are modelled as lists of characters, byte sequences as lists of
naturals. Operations that can raise in Python (out-of-range indexing,
failed alphabet lookup, failed integer parsing) return Option; reply
parsers return a ParseResult distinguishing the Python None result from
an uncaught exception.
-/

namespace IBIS

/-- The VDV hexadecimal alphabet, the string literal at ibis_protocol.py line 162. -/
def vdvhex : List Char :=
  ['0', '1', '2', '3', '4', '5', '6', '7', '8', '9', ':', ';', '<', '=', '>', '?']

/-- Python sequence indexing l[i]: a negative index counts from the end;
an out-of-range index raises IndexError, modelled as none. -/
def pyIndex (l : List Char) (i : Int) : Option Char :=
  let j : Int := if i < 0 then i + l.length else i
  if 0 ≤ j ∧ j < l.length then l.get? j.toNat else none

/-- vdv_hex applied to an int (ibis_protocol.py line 164): index into the alphabet. -/
def vdv_hex_enc (value : Int) : Option Char := pyIndex vdvhex value

/-- Python str.index: position of the first occurrence, ValueError (none) if absent. -/
def strIndex (c : Char) : List Char → Option Nat
  | [] => none
  | d :: ds => if c = d then some 0 else (strIndex c ds).map (fun k => k + 1)

/-- vdv_hex applied to a character (ibis_protocol.py line 166): position in the alphabet. -/
def vdv_hex_dec (value : Char) : Option Nat := strIndex value vdvhex

/-- Python single-character str.replace. -/
def replaceChar (a b : Char) (s : List Char) : List Char :=
  s.map (fun c => if c = a then b else c)

/-- Python str.encode with the ascii codec and errors set to replace:
code points above 127 become the byte 0x3F, a question mark. -/
def asciiReplace (s : List Char) : List Nat :=
  s.map (fun c => if c.toNat ≤ 127 then c.toNat else 0x3F)

/-- process_special_characters (ibis_protocol.py lines 83-102): the seven
replacements in source order, then the ascii coercion. -/
def process_special_characters (telegram : List Char) : List Nat :=
  asciiReplace
    (replaceChar 'Ü' ']'
      (replaceChar 'Ö' '\\'
        (replaceChar 'Ä' '['
          (replaceChar 'ß' '~'
            (replaceChar 'ü' '\x7d'
              (replaceChar 'ö' '|'
                (replaceChar 'ä' '\x7b' telegram)))))))

/-- wrap_telegram (ibis_protocol.py lines 104-120): append the 0x0D terminator,
then the checksum obtained by XOR-folding 0x7F over the extended telegram. -/
def wrap_telegram (telegram : List Nat) : List Nat :=
  let t := telegram ++ [0x0D]
  t ++ [t.foldl (fun a b => a ^^^ b) 0x7F]

/-- The checksum as the specification words it: 0x7F XOR-folded over every
byte of the body and then the terminator 0x0D. -/
def ibis_checksum (body : List Nat) : Nat :=
  (body ++ [0x0D]).foldl (fun a b => a ^^^ b) 0x7F

/-- math.ceil of a natural division. -/
def ceilDiv (a b : Nat) : Nat := (a + b - 1) / b

/-- Python str.ljust: pad on the right with spaces to the given width. -/
def ljust (s : List Char) (w : Nat) : List Char :=
  s ++ List.replicate (w - s.length) ' '

/-- The telegram body built by DS003a (ibis_protocol.py lines 185-195):
the zA command, the VDV-hex block count, the text padded to 16-character blocks. -/
def DS003a_body (text : List Char) : Option (List Char) :=
  let num_blocks := ceilDiv text.length 16
  (vdv_hex_enc num_blocks).map
    (fun c => 'z' :: 'A' :: c :: ljust text (num_blocks * 16))

/-- The telegram body built by DS003c (ibis_protocol.py lines 197-207):
the zI command, the VDV-hex block count, the text padded to 4-character blocks. -/
def DS003c_body (text : List Char) : Option (List Char) :=
  let num_blocks := ceilDiv text.length 4
  (vdv_hex_enc num_blocks).map
    (fun c => 'z' :: 'I' :: c :: ljust text (num_blocks * 4))

/-- Python formatting of a nonnegative integer with the 02d format spec:
decimal digits, zero-padded on the left to a minimum width of two. -/
def format02 (n : Nat) : List Char :=
  let s := Nat.toDigits 10 n
  List.replicate (2 - s.length) '0' ++ s

/-- The telegram body built by DS021a (ibis_protocol.py lines 323-347):
the composite data string 0x03, two-digit stop id, 0x04, stop text, 0x05,
change text; then aL, the VDV-hex address, the VDV-hex quotient and
remainder of divmod(len(data), 16), and the data. -/
def DS021a_body (address : Int) (stop_id : Nat)
    (stop_text change_text : List Char) : Option (List Char) :=
  let data : List Char :=
    '\x03' :: (format02 stop_id ++ '\x04' :: (stop_text ++ '\x05' :: change_text))
  let num_blocks : Nat := data.length / 16
  let remainder : Nat := data.length % 16
  match vdv_hex_enc address, vdv_hex_enc num_blocks, vdv_hex_enc remainder with
  | some a, some b, some r => some ('a' :: 'L' :: a :: b :: r :: data)
  | _, _, _ => none

/-- Outcome of a reply parser. The Python parsers return None for an empty
reply, a dict on success, and raise an uncaught exception on malformed input. -/
inductive ParseResult (α : Type) where
  | noReply : ParseResult α
  | fault : ParseResult α
  | ok : α → ParseResult α
  deriving DecidableEq

/-- The dict returned by parse_DS120: a single status field holding a string. -/
structure DS120Reply where
  status : List Char
  deriving DecidableEq

/-- The dict returned by parse_DS1201: a version field holding the raw substring. -/
structure VersionStrReply where
  version : List Char
  deriving DecidableEq

/-- The dict returned by parse_DS1601: a version field holding an integer. -/
structure VersionIntReply where
  version : Int
  deriving DecidableEq

/-- The dict returned by parse_DS160: a single status field holding a string. -/
structure DS160Reply where
  status : List Char
  deriving DecidableEq

/-- The dict returned by parse_DS161: the reassembled beacon id. -/
structure DS161Reply where
  beacon_id : Nat
  deriving DecidableEq

/-- parse_DS120 (ibis_protocol.py lines 269-283): None on an empty reply,
otherwise the status table applied to the character at index 1, unknown
status characters passing through unchanged. -/
def parse_DS120 (telegram : List Char) : ParseResult DS120Reply :=
  if telegram = [] then .noReply
  else
    match telegram.get? 1 with
    | none => .fault
    | some status =>
      .ok ⟨if status = '0' then "ok".data
        else if status = '1' then "displaying".data
        else if status = '2' then "searching".data
        else if status = '3' then "error".data
        else if status = '6' then "input_implausible".data
        else [status]⟩

/-- parse_DS1201 (ibis_protocol.py lines 297-304): None on an empty reply,
otherwise the raw substring from index 2 as the version. -/
def parse_DS1201 (telegram : List Char) : ParseResult VersionStrReply :=
  if telegram = [] then .noReply else .ok ⟨telegram.drop 2⟩

/-- Python int() on a list of decimal digits: at least one digit required,
every character a digit, value accumulated in base 10. -/
def pyIntDigits (s : List Char) : Option Nat :=
  if s ≠ [] ∧ s.all (fun c => c.isDigit) then
    some (s.foldl (fun a c => a * 10 + (c.toNat - 48)) 0)
  else none

/-- Python int() on a string: an optional sign followed by decimal digits;
anything else raises ValueError, modelled as none. -/
def pyInt (s : List Char) : Option Int :=
  match s with
  | '-' :: ds => (pyIntDigits ds).map (fun n => -(n : Int))
  | '+' :: ds => (pyIntDigits ds).map (fun n => (n : Int))
  | ds => (pyIntDigits ds).map (fun n => (n : Int))

/-- parse_DS1601 (ibis_protocol.py lines 387-394): None on an empty reply,
otherwise the substring from index 2 parsed as an integer. -/
def parse_DS1601 (telegram : List Char) : ParseResult VersionIntReply :=
  if telegram = [] then .noReply
  else
    match pyInt (telegram.drop 2) with
    | some v => .ok ⟨v⟩
    | none => .fault

/-- parse_DS160 (ibis_protocol.py lines 361-373): None on an empty reply,
otherwise the status table applied to the character at index 2, unknown
status characters passing through unchanged. -/
def parse_DS160 (telegram : List Char) : ParseResult DS160Reply :=
  if telegram = [] then .noReply
  else
    match telegram.get? 2 with
    | none => .fault
    | some status =>
      .ok ⟨if status = '0' then "ok_no_information".data
        else if status = '1' then "information_read".data
        else if status = '2' then "new_information".data
        else [status]⟩

/-- The loop of parse_DS161: starting from 0, OR in the decoded nibble of
character n of the slice, shifted left by (7 - n) * 4, for n from 0 to 7;
a missing character or an invalid symbol is a raised exception (none). -/
def beaconFold (bid : List Char) : Option Nat :=
  (List.range 8).foldl
    (fun acc n =>
      acc.bind (fun v =>
        (bid.get? n).bind (fun ch =>
          (vdv_hex_dec ch).map (fun k => v ||| (k <<< ((7 - n) * 4))))))
    (some 0)

/-- parse_DS161 (ibis_protocol.py lines 408-419): None on an empty reply,
otherwise the beacon id reassembled from the slice starting at index 2. -/
def parse_DS161 (telegram : List Char) : ParseResult DS161Reply :=
  if telegram = [] then .noReply
  else
    match beaconFold (telegram.drop 2) with
    | some b => .ok ⟨b⟩
    | none => .fault

/-- Python reply[:-2] in send_telegram (line 148): strip the trailing
terminator and checksum pair; on fewer than two characters the result is empty. -/
def strip_reply (raw : List Char) : List Char := raw.dropLast.dropLast

/-- The reply decoding used by DS020 (ibis_protocol.py line 266). -/
def DS020_decode : List Char → ParseResult DS120Reply := parse_DS120

/-- The reply decoding used by DS201 (ibis_protocol.py line 294). -/
def DS201_decode : List Char → ParseResult VersionStrReply := parse_DS1201

/-- The reply decoding used by DS060 (ibis_protocol.py line 358). -/
def DS060_decode : List Char → ParseResult DS160Reply := parse_DS160

/-- The reply decoding used by DS601 (ibis_protocol.py line 384): the source
calls parse_DS1201 here, although the DS601 docstring says the reply is DS1601
and parse_DS1601 exists. -/
def DS601_decode : List Char → ParseResult VersionStrReply := parse_DS1201

/-- The reply decoding used by DS061 (ibis_protocol.py line 405). -/
def DS061_decode : List Char → ParseResult DS161Reply := parse_DS161

/-- The reply decoding used by DS068 (ibis_protocol.py line 439). -/
def DS068_decode : List Char → ParseResult DS160Reply := parse_DS160

/-- Character-level substitution as the specification describes it:
the seven German letters to their IBIS substitutes, any other character
above 127 to a question mark, ASCII characters unchanged. -/
def sanitizeCharSpec (c : Char) : Nat :=
  if c = 'ä' then 0x7b
  else if c = 'ö' then '|'.toNat
  else if c = 'ü' then 0x7d
  else if c = 'ß' then '~'.toNat
  else if c = 'Ä' then '['.toNat
  else if c = 'Ö' then '\\'.toNat
  else if c = 'Ü' then ']'.toNat
  else if c.toNat ≤ 127 then c.toNat
  else 0x3F

/-! ### Helper lemmas -/

theorem strIndex_lt_length (c : Char) :
    ∀ l k, strIndex c l = some k → k < l.length := by
  intro l
  induction l with
  | nil => intro k h; simp [strIndex] at h
  | cons d ds ih =>
    intro k h
    simp only [strIndex] at h
    by_cases hc : c = d
    · simp [hc] at h
      simp [List.length_cons]
      omega
    · simp [hc] at h
      obtain ⟨m, hm, rfl⟩ := h
      have := ih m hm
      simp
      omega

theorem vdv_hex_dec_lt (c : Char) (k : Nat) (h : vdv_hex_dec c = some k) :
    k < 16 :=
  strIndex_lt_length c vdvhex k h

theorem vdv_hex_enc_dec_ball :
    ∀ n : Nat, n < 16 →
      (vdv_hex_enc n).bind vdv_hex_dec = some n ∧ (vdv_hex_enc n).isSome = true := by
  decide

theorem vdv_hex_enc_nat_exists (n : Nat) (h : n < 16) :
    ∃ c, vdv_hex_enc n = some c ∧ vdv_hex_dec c = some n := by
  obtain ⟨hbind, hsome⟩ := vdv_hex_enc_dec_ball n h
  cases he : vdv_hex_enc (n : Int) with
  | none => rw [he] at hsome; simp at hsome
  | some c =>
    rw [he] at hbind
    exact ⟨c, rfl, hbind⟩

/-! ### Claim theorems -/

/-- C1: wrap_telegram returns the body, then the terminator 0x0D, then the
checksum obtained by XOR-folding 0x7F over the body and the terminator; the
output is two bytes longer than the body, its second-to-last byte is 0x0D
and its last byte is the checksum. -/
theorem wrap_telegram_spec (B : List Nat) :
    wrap_telegram B = B ++ [0x0D] ++ [ibis_checksum B] ∧
    (wrap_telegram B).length = B.length + 2 ∧
    (wrap_telegram B).get? B.length = some 0x0D ∧
    (wrap_telegram B).getLast? = some (ibis_checksum B) := by
  have h1 : wrap_telegram B = (B ++ [0x0D]) ++ [ibis_checksum B] := rfl
  refine ⟨?_, ?_, ?_, ?_⟩
  · rw [h1, List.append_assoc]
  · rw [h1]; simp
  · rw [h1, List.append_assoc, List.get?_append_right (le_refl _)]
    simp
  · rw [h1, List.getLast?_concat]

/-- C2: for every nibble 0..15, decoding the VDV-hex encoding gives the
nibble back, and decoding fails for every character outside the alphabet. -/
theorem vdv_hex_roundtrip (n : Nat) (c : Char) :
    (n < 16 → (vdv_hex_enc n).bind vdv_hex_dec = some n) ∧
    (c ∉ vdvhex → vdv_hex_dec c = none) := by
  constructor
  · intro h
    exact (vdv_hex_enc_dec_ball n h).1
  · intro h
    simp only [vdvhex, List.mem_cons, List.not_mem_nil, or_false] at h
    push_neg at h
    obtain ⟨h0, h1, h2, h3, h4, h5, h6, h7, h8, h9, h10, h11, h12, h13, h14, h15⟩ := h
    simp [vdv_hex_dec, vdvhex, strIndex,
      h0, h1, h2, h3, h4, h5, h6, h7, h8, h9, h10, h11, h12, h13, h14, h15]

/-- Witness for C2 at nibble 5 and character A. -/
theorem vdv_hex_roundtrip_witness :
    (vdv_hex_enc (5 : Nat)).bind vdv_hex_dec = some 5 ∧ vdv_hex_dec 'A' = none :=
  ⟨(vdv_hex_roundtrip 5 'A').1 (by decide),
   (vdv_hex_roundtrip 5 'A').2 (by decide)⟩

/-- C10: VDV-hex encoding is silently defined on -16..-1 by Python negative
indexing, agreeing with the value 16 larger; encoding -1 and encoding 15 both
give the question-mark character; encoding fails exactly for values at least
16 or at most -17. -/
theorem vdv_hex_enc_int_domain (v : Int) :
    (-16 ≤ v → v ≤ -1 →
      vdv_hex_enc v = vdv_hex_enc (v + 16) ∧ (vdv_hex_enc v).isSome = true) ∧
    (vdv_hex_enc v = none ↔ 16 ≤ v ∨ v ≤ -17) ∧
    vdv_hex_enc (-1) = some '?' ∧
    vdv_hex_enc (15 : Int) = some '?' := by
  refine ⟨?_, ?_, by decide, by decide⟩
  · intro hlo hhi
    interval_cases v <;> exact ⟨by decide, by decide⟩
  · constructor
    · intro hnone
      by_contra hcon
      push_neg at hcon
      obtain ⟨ha, hb⟩ := hcon
      interval_cases v <;> exact absurd hnone (by decide)
    · intro hor
      have hL : vdvhex.length = 16 := rfl
      simp only [vdv_hex_enc, pyIndex, hL]
      split_ifs <;> first | rfl | (exfalso; omega)

/-- Witness for C10 at the value -1. -/
theorem vdv_hex_enc_int_domain_witness :
    vdv_hex_enc (-1) = vdv_hex_enc (-1 + 16) ∧ (vdv_hex_enc (-1)).isSome = true :=
  (vdv_hex_enc_int_domain (-1)).1 (by decide) (by decide)

/-- C5: an empty reply, which is what the transmit path hands to the parser
when no bytes arrive before the timeout, decodes to the explicit no-reply
value for every DS-code query function. -/
theorem timeout_no_reply :
    DS020_decode (strip_reply []) = ParseResult.noReply ∧
    DS201_decode (strip_reply []) = ParseResult.noReply ∧
    DS060_decode (strip_reply []) = ParseResult.noReply ∧
    DS601_decode (strip_reply []) = ParseResult.noReply ∧
    DS061_decode (strip_reply []) = ParseResult.noReply ∧
    DS068_decode (strip_reply []) = ParseResult.noReply := by
  refine ⟨rfl, rfl, rfl, rfl, rfl, rfl⟩

/-- C6: sanitizing an outgoing text telegram substitutes exactly the seven
German special characters, replaces every character still outside 0..127
with a question mark, leaves already-ASCII input unchanged, and turns the
word Muenchen written with a u-umlaut into the ASCII bytes of M, 0x7D, nchen. -/
theorem process_special_characters_spec (s : List Char) :
    process_special_characters s = s.map sanitizeCharSpec ∧
    ((∀ c ∈ s, c.toNat ≤ 127) → process_special_characters s = s.map Char.toNat) ∧
    process_special_characters ("München".data) = "M\x7dnchen".data.map Char.toNat := by
  have hmap : ∀ t : List Char, process_special_characters t = t.map sanitizeCharSpec := by
    intro t
    induction t with
    | nil => rfl
    | cons c cs ih =>
      have hstep : process_special_characters (c :: cs) =
          sanitizeCharSpec c :: process_special_characters cs := by
        by_cases e1 : c = 'ä'
        · subst e1; rfl
        by_cases e2 : c = 'ö'
        · subst e2; rfl
        by_cases e3 : c = 'ü'
        · subst e3; rfl
        by_cases e4 : c = 'ß'
        · subst e4; rfl
        by_cases e5 : c = 'Ä'
        · subst e5; rfl
        by_cases e6 : c = 'Ö'
        · subst e6; rfl
        by_cases e7 : c = 'Ü'
        · subst e7; rfl
        simp [process_special_characters, asciiReplace, replaceChar, sanitizeCharSpec,
          e1, e2, e3, e4, e5, e6, e7]
      rw [hstep, ih, List.map_cons]
  refine ⟨hmap s, ?_, ?_⟩
  · intro h
    rw [hmap s]
    apply List.map_congr_left
    intro c hc
    have hcle := h c hc
    simp only [sanitizeCharSpec]
    split_ifs with f1 f2 f3 f4 f5 f6 f7
    · rw [f1] at hcle; exact absurd hcle (by decide)
    · rw [f2] at hcle; exact absurd hcle (by decide)
    · rw [f3] at hcle; exact absurd hcle (by decide)
    · rw [f4] at hcle; exact absurd hcle (by decide)
    · rw [f5] at hcle; exact absurd hcle (by decide)
    · rw [f6] at hcle; exact absurd hcle (by decide)
    · rw [f7] at hcle; exact absurd hcle (by decide)
    · rfl
  · decide

/-- Witness for C6: sanitizing the already-ASCII text abc returns its own bytes. -/
theorem process_special_characters_spec_witness :
    process_special_characters ("abc".data) = "abc".data.map Char.toNat :=
  (process_special_characters_spec ("abc".data)).2.1 (by decide)

/-- C3 (amended): for every text whose block count fits in one nibble, the
block-text encoders DS003a (block size 16) and DS003c (block size 4) pad the
text with trailing spaces to exactly ceil(len/S)*S characters and prefix the
padded text, after the command prefix, with the single VDV-hex character for
the block count ceil(len/S); destination text Stop at block size 16 yields
the body zA, the character 1, Stop, and twelve spaces. -/
theorem block_text_padding (t : List Char) :
    (t.length ≤ 240 →
      ∃ c, vdv_hex_dec c = some (ceilDiv t.length 16) ∧
        DS003a_body t = some ('z' :: 'A' :: c ::
          (t ++ List.replicate (ceilDiv t.length 16 * 16 - t.length) ' ')) ∧
        t.length ≤ ceilDiv t.length 16 * 16 ∧
        (t ++ List.replicate (ceilDiv t.length 16 * 16 - t.length) ' ').length =
          ceilDiv t.length 16 * 16) ∧
    (t.length ≤ 60 →
      ∃ c, vdv_hex_dec c = some (ceilDiv t.length 4) ∧
        DS003c_body t = some ('z' :: 'I' :: c ::
          (t ++ List.replicate (ceilDiv t.length 4 * 4 - t.length) ' ')) ∧
        t.length ≤ ceilDiv t.length 4 * 4 ∧
        (t ++ List.replicate (ceilDiv t.length 4 * 4 - t.length) ' ').length =
          ceilDiv t.length 4 * 4) ∧
    DS003a_body ("Stop".data) = some ("zA1Stop            ".data) := by
  refine ⟨?_, ?_, by decide⟩
  · intro h
    have hn : ceilDiv t.length 16 < 16 := by unfold ceilDiv; omega
    obtain ⟨c, henc, hdec⟩ := vdv_hex_enc_nat_exists _ hn
    refine ⟨c, hdec, ?_, ?_, ?_⟩
    · simp only [DS003a_body, ljust]
      rw [henc]
      rfl
    · unfold ceilDiv; omega
    · simp only [List.length_append, List.length_replicate]
      unfold ceilDiv
      omega
  · intro h
    have hn : ceilDiv t.length 4 < 16 := by unfold ceilDiv; omega
    obtain ⟨c, henc, hdec⟩ := vdv_hex_enc_nat_exists _ hn
    refine ⟨c, hdec, ?_, ?_, ?_⟩
    · simp only [DS003c_body, ljust]
      rw [henc]
      rfl
    · unfold ceilDiv; omega
    · simp only [List.length_append, List.length_replicate]
      unfold ceilDiv
      omega

set_option maxRecDepth 4000 in
/-- Counterexample for C3 as frozen: on a 241-character text the block count
is 16, one more than a nibble can hold, and DS003a raises instead of
building a body. -/
theorem block_text_padding_counterexample :
    DS003a_body (List.replicate 241 'a') = none := by decide

/-- Witness for C3 at the text Stop. -/
theorem block_text_padding_witness :
    ∃ c, vdv_hex_dec c = some (ceilDiv ("Stop".data.length) 16) ∧
      DS003a_body ("Stop".data) = some ('z' :: 'A' :: c ::
        ("Stop".data ++
          List.replicate (ceilDiv ("Stop".data.length) 16 * 16 - "Stop".data.length) ' ')) ∧
      "Stop".data.length ≤ ceilDiv ("Stop".data.length) 16 * 16 ∧
      ("Stop".data ++
        List.replicate (ceilDiv ("Stop".data.length) 16 * 16 - "Stop".data.length) ' ').length =
        ceilDiv ("Stop".data.length) 16 * 16 :=
  (block_text_padding ("Stop".data)).1 (by decide)

/-- C8: whatever the raw display-status reply holds, the decoder maps the
status character at index 1 through the static table and passes any other
character through unchanged; the status character 2 decodes to searching. -/
theorem parse_DS120_status_table (c0 c : Char) (rest : List Char) :
    parse_DS120 (c0 :: c :: rest) =
      ParseResult.ok ⟨if c = '0' then "ok".data
        else if c = '1' then "displaying".data
        else if c = '2' then "searching".data
        else if c = '3' then "error".data
        else if c = '6' then "input_implausible".data
        else [c]⟩ ∧
    parse_DS120 ("a2".data) = ParseResult.ok ⟨"searching".data⟩ := by
  constructor
  · simp [parse_DS120]
  · decide

theorem format02_length : ∀ n : Nat, n < 100 → (format02 n).length = 2 := by
  decide

theorem shifted_nibble_lt (k s : Nat) (hk : k < 16) (hs : s ≤ 28) :
    k <<< s < 2 ^ 32 := by
  rw [Nat.shiftLeft_eq]
  have h1 : k * 2 ^ s ≤ 15 * 2 ^ 28 :=
    Nat.mul_le_mul (by omega) (Nat.pow_le_pow_right (by norm_num) hs)
  have h2 : 15 * 2 ^ 28 < 2 ^ 32 := by norm_num
  omega

/-- C9: on a locating-device data reply carrying eight VDV-hex characters,
the decoder decodes the eight consecutive characters after the two-character
header, most significant first, and ORs decoded nibble i shifted to bit
position (7 - i) * 4; the result fits in 32 bits. -/
theorem parse_DS161_beacon
    (c0 c1 d0 d1 d2 d3 d4 d5 d6 d7 : Char) (rest : List Char)
    (k0 k1 k2 k3 k4 k5 k6 k7 : Nat)
    (h0 : vdv_hex_dec d0 = some k0) (h1 : vdv_hex_dec d1 = some k1)
    (h2 : vdv_hex_dec d2 = some k2) (h3 : vdv_hex_dec d3 = some k3)
    (h4 : vdv_hex_dec d4 = some k4) (h5 : vdv_hex_dec d5 = some k5)
    (h6 : vdv_hex_dec d6 = some k6) (h7 : vdv_hex_dec d7 = some k7) :
    parse_DS161 (c0 :: c1 :: d0 :: d1 :: d2 :: d3 :: d4 :: d5 :: d6 :: d7 :: rest) =
      ParseResult.ok ⟨k0 <<< ((7 - 0) * 4) ||| k1 <<< ((7 - 1) * 4) |||
        k2 <<< ((7 - 2) * 4) ||| k3 <<< ((7 - 3) * 4) ||| k4 <<< ((7 - 4) * 4) |||
        k5 <<< ((7 - 5) * 4) ||| k6 <<< ((7 - 6) * 4) ||| k7 <<< ((7 - 7) * 4)⟩ ∧
    k0 <<< ((7 - 0) * 4) ||| k1 <<< ((7 - 1) * 4) ||| k2 <<< ((7 - 2) * 4) |||
      k3 <<< ((7 - 3) * 4) ||| k4 <<< ((7 - 4) * 4) ||| k5 <<< ((7 - 5) * 4) |||
      k6 <<< ((7 - 6) * 4) ||| k7 <<< ((7 - 7) * 4) < 2 ^ 32 := by
  constructor
  · have hrange : List.range 8 = [0, 1, 2, 3, 4, 5, 6, 7] := rfl
    simp [parse_DS161, beaconFold, hrange, h0, h1, h2, h3, h4, h5, h6, h7,
      Nat.zero_or]
  · have b0 := vdv_hex_dec_lt _ _ h0
    have b1 := vdv_hex_dec_lt _ _ h1
    have b2 := vdv_hex_dec_lt _ _ h2
    have b3 := vdv_hex_dec_lt _ _ h3
    have b4 := vdv_hex_dec_lt _ _ h4
    have b5 := vdv_hex_dec_lt _ _ h5
    have b6 := vdv_hex_dec_lt _ _ h6
    have b7 := vdv_hex_dec_lt _ _ h7
    exact Nat.or_lt_two_pow
      (Nat.or_lt_two_pow
        (Nat.or_lt_two_pow
          (Nat.or_lt_two_pow
            (Nat.or_lt_two_pow
              (Nat.or_lt_two_pow
                (Nat.or_lt_two_pow
                  (shifted_nibble_lt _ _ b0 (by norm_num))
                  (shifted_nibble_lt _ _ b1 (by norm_num)))
                (shifted_nibble_lt _ _ b2 (by norm_num)))
              (shifted_nibble_lt _ _ b3 (by norm_num)))
            (shifted_nibble_lt _ _ b4 (by norm_num)))
          (shifted_nibble_lt _ _ b5 (by norm_num)))
        (shifted_nibble_lt _ _ b6 (by norm_num)))
      (shifted_nibble_lt _ _ b7 (by norm_num))

/-- Witness for C9 at the reply oD01234567. -/
theorem parse_DS161_beacon_witness :
    parse_DS161 ('o' :: 'D' :: '0' :: '1' :: '2' :: '3' :: '4' :: '5' :: '6' :: '7' :: []) =
      ParseResult.ok ⟨0 <<< ((7 - 0) * 4) ||| 1 <<< ((7 - 1) * 4) |||
        2 <<< ((7 - 2) * 4) ||| 3 <<< ((7 - 3) * 4) ||| 4 <<< ((7 - 4) * 4) |||
        5 <<< ((7 - 5) * 4) ||| 6 <<< ((7 - 6) * 4) ||| 7 <<< ((7 - 7) * 4)⟩ ∧
    0 <<< ((7 - 0) * 4) ||| 1 <<< ((7 - 1) * 4) ||| 2 <<< ((7 - 2) * 4) |||
      3 <<< ((7 - 3) * 4) ||| 4 <<< ((7 - 4) * 4) ||| 5 <<< ((7 - 5) * 4) |||
      6 <<< ((7 - 6) * 4) ||| 7 <<< ((7 - 7) * 4) < 2 ^ 32 :=
  parse_DS161_beacon 'o' 'D' '0' '1' '2' '3' '4' '5' '6' '7' []
    0 1 2 3 4 5 6 7 (by decide) (by decide) (by decide) (by decide)
    (by decide) (by decide) (by decide) (by decide)

/-- C7 (amended): for addresses 0..15, stop ids up to two digits and texts
whose composite stays below 256 characters, DS021a builds the composite
0x03, two-digit stop id, 0x04, stop text, 0x05, change text, and places the
VDV-hex quotient and remainder of divmod(len(composite), 16) after the
command prefix and address and before the composite. -/
theorem DS021a_spec (address : Int) (stop_id : Nat) (stop_text change_text : List Char)
    (ha0 : 0 ≤ address) (ha1 : address ≤ 15) (hid : stop_id ≤ 99)
    (hlen : stop_text.length + change_text.length ≤ 250) :
    ∃ a b r,
      vdv_hex_dec a = some address.toNat ∧
      vdv_hex_dec b = some ((5 + stop_text.length + change_text.length) / 16) ∧
      vdv_hex_dec r = some ((5 + stop_text.length + change_text.length) % 16) ∧
      (format02 stop_id).length = 2 ∧
      DS021a_body address stop_id stop_text change_text =
        some ('a' :: 'L' :: a :: b :: r ::
          '\x03' :: (format02 stop_id ++ '\x04' :: (stop_text ++ '\x05' :: change_text))) := by
  have hfmt : (format02 stop_id).length = 2 := format02_length stop_id (by omega)
  set data : List Char :=
    '\x03' :: (format02 stop_id ++ '\x04' :: (stop_text ++ '\x05' :: change_text))
    with hdata
  have hdl : data.length = 5 + stop_text.length + change_text.length := by
    simp only [hdata, List.length_cons, List.length_append, hfmt]
    omega
  obtain ⟨n, rfl⟩ := Int.eq_ofNat_of_zero_le ha0
  have hn : n < 16 := by omega
  obtain ⟨a, hea, hda⟩ := vdv_hex_enc_nat_exists n hn
  obtain ⟨b, heb, hdb⟩ := vdv_hex_enc_nat_exists (data.length / 16) (by omega)
  obtain ⟨r, her, hdr⟩ := vdv_hex_enc_nat_exists (data.length % 16) (by omega)
  refine ⟨a, b, r, ?_, ?_, ?_, hfmt, ?_⟩
  · simpa using hda
  · rw [hdl] at hdb
    exact hdb
  · rw [hdl] at hdr
    exact hdr
  · simp only [DS021a_body]
    rw [← hdata, hea, heb, her]

set_option maxRecDepth 4000 in
/-- Counterexample for C7 as frozen: a 256-character change text makes the
composite 261 characters long, the quotient 16 no longer fits one nibble,
and DS021a raises instead of building a body. -/
theorem DS021a_spec_counterexample :
    DS021a_body 0 1 [] (List.replicate 256 'a') = none := by decide

/-- Witness for C7 at address 1, stop id 7, stop text A, change text B. -/
theorem DS021a_spec_witness :
    ∃ a b r,
      vdv_hex_dec a = some (1 : Int).toNat ∧
      vdv_hex_dec b = some ((5 + "A".data.length + "B".data.length) / 16) ∧
      vdv_hex_dec r = some ((5 + "A".data.length + "B".data.length) % 16) ∧
      (format02 7).length = 2 ∧
      DS021a_body 1 7 ("A".data) ("B".data) =
        some ('a' :: 'L' :: a :: b :: r ::
          '\x03' :: (format02 7 ++ '\x04' :: ("A".data ++ '\x05' :: "B".data))) :=
  DS021a_spec 1 7 ("A".data) ("B".data) (by decide) (by decide) (by decide) (by decide)

/-- C4: the two version-reply decoders are indeed asymmetric in shape —
parse_DS1201 keeps the raw substring and parse_DS1601 parses it as an
integer — but DS601 routes its reply through parse_DS1201, the very decoder
DS201 uses, so both version queries return the raw string and parse_DS1601
is never called, contradicting the DS601 docstring naming DS1601 as its reply. -/
theorem DS601_decoder_mismatch :
    DS601_decode = parse_DS1201 ∧
    DS201_decode = parse_DS1201 ∧
    DS601_decode ("oV0000000000000042".data) =
      ParseResult.ok ⟨"0000000000000042".data⟩ ∧
    parse_DS1601 ("oV0000000000000042".data) = ParseResult.ok ⟨(42 : Int)⟩ ∧
    DS201_decode ("aV000042".data) = ParseResult.ok ⟨"000042".data⟩ :=
  ⟨rfl, rfl, by decide, by decide, by decide⟩

end IBIS
